import Mathlib

/-!
Verification of the acceleration-structure build and SBT dispatch pipeline
of the vk_path_tracer repository, against a shallow embedding of
src/checkpoints/e11_rt_pipeline_1/main.cpp and the accumulating ray-generation
shader in src/_edit/shaders.
-/

/-- Truncation to 64 bits, the arithmetic of VkDeviceSize (uint64_t). -/
def u64 (x : Nat) : Nat := x % 2 ^ 64

/-- The SBT stride computed at main.cpp:98-99:
`sbtStride = sbtBaseAlignment * ((sbtHeaderSize + sbtBaseAlignment - 1) / sbtBaseAlignment)`,
in VkDeviceSize (uint64) arithmetic.  The inputs come from the uint32_t fields
shaderGroupHandleSize and shaderGroupBaseAlignment of
VkPhysicalDeviceRayTracingPipelinePropertiesKHR. -/
def sbtStrideOf (sbtHeaderSize sbtBaseAlignment : Nat) : Nat :=
  u64 (sbtBaseAlignment * (u64 (u64 (sbtHeaderSize + sbtBaseAlignment) - 1) / sbtBaseAlignment))

/-- The SBT stride setup of main.cpp:97-100 with its two asserts modelled as
abort (`none`): assert sbtBaseAlignment % sbtHandleAlignment == 0, compute the
stride, assert stride <= maxShaderGroupStride. -/
def sbtSetup (sbtHeaderSize sbtBaseAlignment sbtHandleAlignment maxShaderGroupStride : Nat) :
    Option Nat :=
  if sbtBaseAlignment % sbtHandleAlignment = 0 then
    let stride := sbtStrideOf sbtHeaderSize sbtBaseAlignment
    if stride ≤ maxShaderGroupStride then some stride else none
  else none

theorem u64_eq_of_lt {x : Nat} (h : x < 2 ^ 64) : u64 x = x := Nat.mod_eq_of_lt h

/-- With 32-bit inputs and a positive alignment the uint64 truncations vanish. -/
theorem sbtStrideOf_eq (hs ba : Nat) (hba : 0 < ba)
    (hs32 : hs < 2 ^ 32) (ba32 : ba < 2 ^ 32) :
    sbtStrideOf hs ba = ba * ((hs + ba - 1) / ba) := by
  have h1 : hs + ba < 2 ^ 64 := by
    have : (2:Nat) ^ 32 + 2 ^ 32 ≤ 2 ^ 64 := by norm_num
    omega
  have h2 : hs + ba - 1 < 2 ^ 64 := by omega
  have h3 : ba * ((hs + ba - 1) / ba) < 2 ^ 64 := by
    have hle : ba * ((hs + ba - 1) / ba) ≤ hs + ba - 1 := Nat.mul_div_le _ _
    omega
  unfold sbtStrideOf
  rw [u64_eq_of_lt h1, u64_eq_of_lt h2, u64_eq_of_lt h3]

/-- Rounding up to a multiple of `ba` does not go below `hs`. -/
theorem le_mul_ceil_div (hs ba : Nat) (hhs : 0 < hs) (hba : 0 < ba) :
    hs ≤ ba * ((hs + ba - 1) / ba) := by
  have hdm : ba * ((hs + ba - 1) / ba) + (hs + ba - 1) % ba = hs + ba - 1 :=
    Nat.div_add_mod _ _
  have hr : (hs + ba - 1) % ba < ba := Nat.mod_lt _ hba
  set k := ba * ((hs + ba - 1) / ba) with hk
  omega

/-- C1: for every handleSize > 0, baseAlignment > 0, handleAlignment > 0 with
baseAlignment dividing evenly by handleAlignment (all 32-bit device properties),
the computed SBT stride is a multiple of baseAlignment, is at least handleSize,
and the program admits the setup only when the stride is at most
maxShaderGroupStride (the assert at main.cpp:100); handleSize = 32 with
baseAlignment = 64 yields stride 64. -/
theorem sbtStride_aligned_ge_and_assert
    (hs ba ha maxStride : Nat)
    (hhs : 0 < hs) (hba : 0 < ba) (hha : 0 < ha)
    (hmod : ba % ha = 0)
    (hs32 : hs < 2 ^ 32) (ba32 : ba < 2 ^ 32) :
    ba ∣ sbtStrideOf hs ba ∧
    hs ≤ sbtStrideOf hs ba ∧
    (∀ s, sbtSetup hs ba ha maxStride = some s →
      s = sbtStrideOf hs ba ∧ s ≤ maxStride) ∧
    sbtStrideOf 32 64 = 64 := by
  rw [sbtStrideOf_eq hs ba hba hs32 ba32]
  refine ⟨Dvd.intro _ rfl, le_mul_ceil_div hs ba hhs hba, ?_, by decide⟩
  intro s hsome
  unfold sbtSetup at hsome
  rw [if_pos hmod] at hsome
  by_cases hle : sbtStrideOf hs ba ≤ maxStride
  · simp only [hle, if_true, Option.some.injEq] at hsome
    rw [sbtStrideOf_eq hs ba hba hs32 ba32] at hsome hle
    exact ⟨hsome.symm, hsome ▸ hle⟩
  · rw [if_neg hle] at hsome
    exact absurd hsome (by simp)

/-- Instantiation of the C1 theorem at handleSize = 32, baseAlignment = 64,
handleAlignment = 32, maxShaderGroupStride = 4096. -/
theorem sbtStride_aligned_ge_and_assert_witness :
    64 ∣ sbtStrideOf 32 64 ∧
    32 ≤ sbtStrideOf 32 64 ∧
    (∀ s, sbtSetup 32 64 32 4096 = some s → s = sbtStrideOf 32 64 ∧ s ≤ 4096) ∧
    sbtStrideOf 32 64 = 64 :=
  sbtStride_aligned_ge_and_assert 32 64 32 4096 (by decide) (by decide) (by decide)
    (by decide) (by norm_num) (by norm_num)

/-- VkStridedDeviceAddressRegionKHR: a {deviceAddress, stride, size} slice of the
single SBT buffer. -/
structure StridedRegion where
  deviceAddress : Nat
  stride : Nat
  size : Nat
deriving DecidableEq, Repr

/-- The four SBT region descriptors as assigned at main.cpp:482-498, in
group-index order (ray-gen, then miss, hit, callable): the ray-gen region
starts at the SBT buffer address with size one stride; the other three copy it
and set their size to 0. -/
def mkSbtRegions (sbtStartAddress stride : Nat) :
    StridedRegion × StridedRegion × StridedRegion × StridedRegion :=
  let sbtRayGenRegion : StridedRegion :=
    { deviceAddress := sbtStartAddress, stride := stride, size := stride }
  let sbtMissRegion := { sbtRayGenRegion with size := 0 }
  let sbtHitRegion := { sbtRayGenRegion with size := 0 }
  let sbtCallableRegion := { sbtRayGenRegion with size := 0 }
  (sbtRayGenRegion, sbtMissRegion, sbtHitRegion, sbtCallableRegion)

/-- C4: the four region descriptors are slices of the single SBT buffer in
group-index order; the unused miss, hit and callable regions have size 0 while
carrying the ray-gen region's stride and the SBT buffer's start address. -/
theorem sbtRegions_layout (addr stride : Nat) :
    (mkSbtRegions addr stride).1.deviceAddress = addr ∧
    (mkSbtRegions addr stride).1.stride = stride ∧
    (mkSbtRegions addr stride).1.size = stride ∧
    (mkSbtRegions addr stride).2.1.size = 0 ∧
    (mkSbtRegions addr stride).2.2.1.size = 0 ∧
    (mkSbtRegions addr stride).2.2.2.size = 0 ∧
    (mkSbtRegions addr stride).2.1.stride = (mkSbtRegions addr stride).1.stride ∧
    (mkSbtRegions addr stride).2.2.1.stride = (mkSbtRegions addr stride).1.stride ∧
    (mkSbtRegions addr stride).2.2.2.stride = (mkSbtRegions addr stride).1.stride ∧
    (mkSbtRegions addr stride).2.1.deviceAddress = addr ∧
    (mkSbtRegions addr stride).2.2.1.deviceAddress = addr ∧
    (mkSbtRegions addr stride).2.2.2.deviceAddress = addr := by
  simp [mkSbtRegions]

/-- GLSL mix(a, b, t) = a * (1 - t) + b * t, one color channel, exact arithmetic. -/
def glslMix (a b t : ℚ) : ℚ := a * (1 - t) + b * t

/-- One accumulation step of the accumulating ray-generation shader
(fullscreen.vert.glsl:94-105): with frame 0 the new color is stored; with
frame > 0 the stored value is mix(previous, new, alpha) with
alpha = 1.0 / frame. -/
def accumulateStep (frame : Nat) (prev newColor : ℚ) : ℚ :=
  if frame = 0 then newColor else glslMix prev newColor (1 / (frame : ℚ))

/-- Stored image value (one channel of one pixel) after the shader has run on
batches 0, 1, ..., k, where `batches j` is batch j's raw per-batch result. -/
def accumulate (batches : Nat → ℚ) : Nat → ℚ
  | 0 => accumulateStep 0 0 (batches 0)
  | k + 1 => accumulateStep (k + 1) (accumulate batches k) (batches (k + 1))

/-- Follows the claim's words (not the code): at frame index k > 0 the stored
value would be mix(previous, new, 1 / (k + 1)), the running average. -/
def claimAccumulate (batches : Nat → ℚ) : Nat → ℚ
  | 0 => batches 0
  | k + 1 => glslMix (claimAccumulate batches k) (batches (k + 1)) (1 / ((k : ℚ) + 2))

/-- C2: on the constant per-batch sequence batch0 = 1, batch1 = 3, the shader
stores 3 after batch 1 (its alpha is 1 / frame, which is 1 at frame 1, so the
first batch is discarded), while the claimed formula mix(previous, new,
1 / (k + 1)) yields the running average 2. -/
theorem accumulate_drops_first_batch :
    accumulate (fun k => if k = 0 then 1 else 3) 0 = 1 ∧
    accumulate (fun k => if k = 0 then 1 else 3) 1 = 3 ∧
    claimAccumulate (fun k => if k = 0 then 1 else 3) 1 = 2 ∧
    accumulate (fun k => if k = 0 then 1 else 3) 1 ≠
      glslMix (accumulate (fun k => if k = 0 then 1 else 3) 0) 3 (1 / (1 + 1)) := by
  refine ⟨by norm_num [accumulate, accumulateStep], ?_, ?_, ?_⟩
  · norm_num [accumulate, accumulateStep, glslMix]
  · norm_num [claimAccumulate, glslMix]
  · norm_num [accumulate, accumulateStep, glslMix]

/-- The GPU resources of main.cpp that the orchestrator creates and releases
(the enumeration of the spec's ownership sentence). -/
inductive Res where
  | image
  | imageView
  | imageLinear
  | cmdPool
  | vertexBuffer
  | indexBuffer
  | rtBuilder
  | descriptorSetContainer
  | rayGenModule
  | rtPipeline
  | rtSBTBuffer
deriving DecidableEq, Repr

/-- Creation order, transcribed from main.cpp: image (line 139), imageView
(164), imageLinear (176), cmdPool (205), vertexBuffer (216), indexBuffer (217),
the raytracing builder holding the acceleration structures (296-328), the
descriptor set container (335), rayGenModule (377), rtPipeline (439),
rtSBTBuffer (463). -/
def createOrder : List Res :=
  [Res.image, Res.imageView, Res.imageLinear, Res.cmdPool, Res.vertexBuffer,
   Res.indexBuffer, Res.rtBuilder, Res.descriptorSetContainer, Res.rayGenModule,
   Res.rtPipeline, Res.rtSBTBuffer]

/-- Teardown order, transcribed from main.cpp:600-610: rtSBTBuffer, rtPipeline,
rayGenModule, descriptorSetContainer, the raytracing builder, vertexBuffer,
indexBuffer, cmdPool, imageLinear, imageView, image. -/
def destroyOrder : List Res :=
  [Res.rtSBTBuffer, Res.rtPipeline, Res.rayGenModule, Res.descriptorSetContainer,
   Res.rtBuilder, Res.vertexBuffer, Res.indexBuffer, Res.cmdPool, Res.imageLinear,
   Res.imageView, Res.image]

/-- Counterexample to C6: the teardown sequence is not the strict reverse of the
creation sequence — at positions 5 and 6 the program destroys vertexBuffer
before indexBuffer although vertexBuffer was created first. -/
theorem teardown_not_reverse_creation :
    destroyOrder ≠ createOrder.reverse ∧
    destroyOrder.get ⟨5, by decide⟩ = Res.vertexBuffer ∧
    createOrder.reverse.get ⟨5, by decide⟩ = Res.indexBuffer ∧
    createOrder.indexOf Res.vertexBuffer < createOrder.indexOf Res.indexBuffer ∧
    destroyOrder.indexOf Res.vertexBuffer < destroyOrder.indexOf Res.indexBuffer := by
  decide

/-- C6 as amended: every created GPU resource is released exactly once, and the
release order is the strict reverse of the creation order except that
vertexBuffer and indexBuffer are released in creation order; transposing those
two names turns the teardown sequence into the exact reverse of the creation
sequence. -/
theorem teardown_exact_once_reverse_up_to_buffer_swap :
    (∀ r ∈ createOrder, createOrder.count r = 1 ∧ destroyOrder.count r = 1) ∧
    (∀ r ∈ destroyOrder, r ∈ createOrder) ∧
    destroyOrder.map
        (fun r => if r = Res.vertexBuffer then Res.indexBuffer
                  else if r = Res.indexBuffer then Res.vertexBuffer else r)
      = createOrder.reverse := by
  decide

/-- Result of the startup phase of main: the GPU resources created before the
run ends (normally or by a failed assert), and whether it aborted. -/
structure StartupResult where
  created : List Res
  aborted : Bool
deriving DecidableEq, Repr

/-- The startup sequence of main.cpp, transcribed in program order: image,
imageView and imageLinear are created (lines 139-180), then the OBJ mesh is
parsed and the two asserts run — assert(reader.Valid()) at line 188 and
assert(objShapes.size() == 1) at line 191 — and only past them are the command
pool, the vertex and index buffers, the acceleration structures, the
descriptors, the shader module, the pipeline and the SBT buffer created. -/
def runStartup (meshValid : Bool) (shapeCount : Nat) : StartupResult :=
  let pre := [Res.image, Res.imageView, Res.imageLinear]
  if meshValid = false then { created := pre, aborted := true }
  else if shapeCount ≠ 1 then { created := pre, aborted := true }
  else
    { created := pre ++ [Res.cmdPool, Res.vertexBuffer, Res.indexBuffer,
        Res.rtBuilder, Res.descriptorSetContainer, Res.rayGenModule,
        Res.rtPipeline, Res.rtSBTBuffer],
      aborted := false }

/-- Counterexample to C5: on a malformed mesh (and likewise on a two-shape
mesh) the run aborts, but GPU resources — the output image, its view and the
linear readback image — have already been created at that point. -/
theorem startup_abort_after_image_creation :
    (runStartup false 1).aborted = true ∧
    Res.image ∈ (runStartup false 1).created ∧
    Res.imageView ∈ (runStartup false 1).created ∧
    Res.imageLinear ∈ (runStartup false 1).created ∧
    (runStartup true 2).aborted = true ∧
    Res.image ∈ (runStartup true 2).created := by
  decide

/-- C5 as amended: a malformed or missing mesh, or a shape count other than
one, aborts the run; at that point exactly the output image, its view and the
linear readback image exist, and no buffer, command pool, acceleration
structure, descriptor container, shader module, pipeline or SBT buffer has been
created. -/
theorem startup_abort_resources (meshValid : Bool) (shapeCount : Nat)
    (h : meshValid = false ∨ shapeCount ≠ 1) :
    (runStartup meshValid shapeCount).aborted = true ∧
    (runStartup meshValid shapeCount).created = [Res.image, Res.imageView, Res.imageLinear] := by
  rcases h with h | h
  · subst h
    exact ⟨rfl, rfl⟩
  · unfold runStartup
    cases meshValid with
    | false => exact ⟨rfl, rfl⟩
    | true => simp [h]

/-- Instantiation of the amended C5 theorem at a malformed mesh. -/
theorem startup_abort_resources_witness :
    (runStartup false 1).aborted = true ∧
    (runStartup false 1).created = [Res.image, Res.imageView, Res.imageLinear] :=
  startup_abort_resources false 1 (Or.inl rfl)

/-- Modelled from the spec: the PushConstants struct comes from common.h, which
is not under src/; spec section 3 lists its contents as per-dispatch scalar
state — the current sample-batch index, an accumulated frame count, and
camera/light parameters.  As a C++ global it is zero-initialized. -/
structure PushConstants where
  sample_batch : Nat
  frame_count : Nat
  camera_param : Int
  light_param : Int
deriving DecidableEq, Repr

/-- The zero-initialized global `pushConstants` of main.cpp:23. -/
def pushConstantsInit : PushConstants :=
  { sample_batch := 0, frame_count := 0, camera_param := 0, light_param := 0 }

/-- main.cpp:500. -/
def NUM_SAMPLE_BATCHES : Nat := 32

/-- Commands recorded by one execution of the sample-batch loop body. -/
inductive FrameOp where
  | bindPipeline
  | bindDescriptorSet
  | pushConstantBlock (pc : PushConstants)
  | traceRays
  | copyToHost
deriving DecidableEq, Repr

/-- The sample-batch loop of main.cpp:501-593 over the remaining batch indices,
threading the global pushConstants value: each iteration binds the pipeline and
descriptor set, assigns only the sample_batch field, pushes the whole block,
and issues one trace-rays dispatch; the final batch additionally copies the
image back to the host. -/
def frameLoop : PushConstants → List Nat → List FrameOp
  | _, [] => []
  | pc, k :: rest =>
    let pcNext := { pc with sample_batch := k }
    ([FrameOp.bindPipeline, FrameOp.bindDescriptorSet,
      FrameOp.pushConstantBlock pcNext, FrameOp.traceRays]
        ++ if k = NUM_SAMPLE_BATCHES - 1 then [FrameOp.copyToHost] else [])
      ++ frameLoop pcNext rest

/-- The full command trace of one run of the dispatch loop. -/
def frameLoopTrace : List FrameOp :=
  frameLoop pushConstantsInit (List.range NUM_SAMPLE_BATCHES)

/-- The push-constant blocks pushed over the run, in dispatch order. -/
def pushedBlocks : List PushConstants :=
  frameLoopTrace.filterMap
    (fun op => match op with
      | FrameOp.pushConstantBlock pc => some pc
      | _ => none)

/-- C7: one run issues exactly 32 trace-rays dispatches, and the sample-batch
indices written into the push constants before the dispatches are 0, 1, ..., 31
in strictly increasing contiguous order. -/
theorem frameLoop_batches :
    frameLoopTrace.count FrameOp.traceRays = NUM_SAMPLE_BATCHES ∧
    NUM_SAMPLE_BATCHES = 32 ∧
    pushedBlocks.map (fun pc => pc.sample_batch) = List.range 32 := by
  decide

/-- C10: across all dispatches the host writes only the sample_batch field:
every pushed block keeps the zero-initialized values of every other field, and
two consecutive pushed blocks differ exactly in sample_batch. -/
theorem pushConstants_only_sample_batch :
    (∀ pc ∈ pushedBlocks,
      pc.frame_count = 0 ∧ pc.camera_param = 0 ∧ pc.light_param = 0) ∧
    (∀ p ∈ pushedBlocks.zip pushedBlocks.tail,
      p.2 = { p.1 with sample_batch := p.2.sample_batch } ∧
      p.1.sample_batch ≠ p.2.sample_batch) := by
  decide

/-- VkAccelerationStructureInstanceKHR as filled by the grid loop
(main.cpp:306-327); the glm float transform is abstracted to the integer grid
coordinates that parameterize it, which the claim does not inspect. -/
structure ASInstance where
  gridX : Int
  gridY : Int
  instanceCustomIndex : Nat
  accelerationStructureReference : Nat
  instanceShaderBindingTableRecordOffset : Nat
  flags : Nat
  mask : Nat
deriving DecidableEq, Repr

/-- The 21 x 21 instance grid built by the nested loops over x = -10..10 and
y = -10..10: every instance carries custom index 0, SBT record offset 0, the
triangle-facing-cull-disable flag, mask 0xFF, and the device address of BLAS 0
obtained from the raytracing builder (`blasAddr 0`). -/
def instanceGrid (blasAddr : Nat → Nat) : List ASInstance :=
  (List.range 21).flatMap (fun (xi : Nat) =>
    (List.range 21).map (fun (yi : Nat) =>
      { gridX := (xi : Int) - 10, gridY := (yi : Int) - 10,
        instanceCustomIndex := 0,
        accelerationStructureReference := blasAddr 0,
        instanceShaderBindingTableRecordOffset := 0,
        flags := 1,
        mask := 255 }))

theorem instanceGrid_length (blasAddr : Nat → Nat) :
    (instanceGrid blasAddr).length = 441 := by
  simp only [instanceGrid, List.length_flatMap, Function.comp_def, List.length_map,
    List.length_range]
  decide

/-- Acceleration-structure build steps of main.cpp:296-328, in program order. -/
inductive ASEvent where
  | buildBlas
  | queryBlasAddr (blasIndex : Nat)
  | buildTlas (instanceCount : Nat)
deriving DecidableEq, Repr

/-- buildBlas runs first (line 298); the grid loop queries the BLAS 0 device
address once per instance (line 320); buildTlas is called once with the
complete instance list (line 328). -/
def asBuildTrace (blasAddr : Nat → Nat) : List ASEvent :=
  ASEvent.buildBlas ::
    ((instanceGrid blasAddr).map (fun _ => ASEvent.queryBlasAddr 0)
      ++ [ASEvent.buildTlas (instanceGrid blasAddr).length])

/-- C8: the grid loop produces exactly 441 instances, each referencing the
device address of BLAS 0; the BLAS build precedes every address query, and
buildTlas is invoked exactly once, with instance count 441. -/
theorem instanceGrid_tlas (blasAddr : Nat → Nat) :
    (instanceGrid blasAddr).length = 441 ∧
    (instanceGrid blasAddr).map (fun i => i.accelerationStructureReference)
      = List.replicate 441 (blasAddr 0) ∧
    (asBuildTrace blasAddr).head? = some ASEvent.buildBlas ∧
    (asBuildTrace blasAddr).count (ASEvent.buildTlas 441) = 1 ∧
    (∀ n, ASEvent.buildTlas n ∈ asBuildTrace blasAddr → n = 441) := by
  have hmap : (instanceGrid blasAddr).map (fun _ => ASEvent.queryBlasAddr 0)
      = List.replicate 441 (ASEvent.queryBlasAddr 0) := by
    rw [List.map_const', instanceGrid_length]
  refine ⟨instanceGrid_length blasAddr, ?_, rfl, ?_, ?_⟩
  · rw [List.eq_replicate_iff]
    refine ⟨by rw [List.length_map, instanceGrid_length], ?_⟩
    intro b hb
    simp only [List.mem_map, List.mem_flatMap, List.mem_range, instanceGrid] at hb
    obtain ⟨inst, ⟨xi, hxi, ⟨yi, hyi, rfl⟩⟩, rfl⟩ := hb
    rfl
  · rw [asBuildTrace, instanceGrid_length, hmap, List.count_cons, List.count_append,
      List.count_replicate]
    decide
  · intro n hn
    rw [asBuildTrace, instanceGrid_length, hmap] at hn
    simp only [List.mem_cons, List.mem_append, List.mem_replicate,
      List.mem_singleton] at hn
    rcases hn with h | ⟨-, h⟩ | h | h
    · exact absurd h (by simp)
    · exact absurd h (by simp)
    · injection h
    · exact absurd h (by simp)

/-- One memcpy into the mapped SBT buffer: the bytes of `src` replace the bytes
of `buf` starting at offset `off` (main.cpp:471). -/
def writeBytes (buf : List Nat) (off : Nat) (src : List Nat) : List Nat :=
  buf.take off ++ src ++ buf.drop (off + src.length)

/-- Reading `len` bytes of `buf` starting at offset `off`. -/
def readBytes (buf : List Nat) (off len : Nat) : List Nat :=
  (buf.drop off).take len

/-- The SBT write loop of main.cpp:469-472 from group index `g` on: handle
number g is copied to offset g * stride. -/
def sbtWriteLoop (stride : Nat) : Nat → List (List Nat) → List Nat → List Nat
  | _, [], buf => buf
  | g, h :: rest, buf => sbtWriteLoop stride (g + 1) rest (writeBytes buf (g * stride) h)

/-- The complete SBT packing: all handles written from group index 0. -/
def sbtPack (stride : Nat) (handles : List (List Nat)) (buf : List Nat) : List Nat :=
  sbtWriteLoop stride 0 handles buf

/-- An in-bounds write preserves the buffer size. -/
theorem writeBytes_length (buf src : List Nat) (off : Nat)
    (h : off + src.length ≤ buf.length) :
    (writeBytes buf off src).length = buf.length := by
  simp [writeBytes]
  omega

/-- A write never shrinks the buffer. -/
theorem writeBytes_length_ge (buf src : List Nat) (off : Nat) :
    buf.length ≤ (writeBytes buf off src).length := by
  simp [writeBytes]
  omega

/-- Reading back an in-bounds write at its own offset returns the source. -/
theorem readBytes_writeBytes_self (buf src : List Nat) (off : Nat)
    (h : off + src.length ≤ buf.length) :
    readBytes (writeBytes buf off src) off src.length = src := by
  unfold readBytes writeBytes
  have h1 : (buf.take off).length = off := by
    rw [List.length_take]; omega
  rw [List.append_assoc, List.drop_left' h1, List.take_left]

/-- A read that ends within the first part of an append ignores the second. -/
theorem take_drop_append (T X : List Nat) (off len : Nat) (h : off + len ≤ T.length) :
    ((T ++ X).drop off).take len = (T.drop off).take len := by
  rw [List.drop_append_eq_append_drop, List.take_append_eq_append_take]
  have h1 : off - T.length = 0 := by omega
  have h2 : (T.drop off).length = T.length - off := List.length_drop off T
  have h3 : len - (T.drop off).length = 0 := by omega
  rw [h1, h3]
  simp

/-- A read that ends at or below a write's offset is unaffected by the write. -/
theorem readBytes_writeBytes_below (buf src : List Nat) (off len off2 : Nat)
    (h1 : off + len ≤ off2) (h2 : off + len ≤ buf.length) :
    readBytes (writeBytes buf off2 src) off len = readBytes buf off len := by
  unfold readBytes writeBytes
  have hT : off + len ≤ (buf.take off2).length := by
    rw [List.length_take]; omega
  rw [List.append_assoc,
    take_drop_append (buf.take off2) (src ++ buf.drop (off2 + src.length)) off len hT]
  rw [List.drop_take]
  rw [List.take_take]
  congr 1
  omega

/-- The write loop from group index g only touches offsets at or above
g * stride, so reads that end below are unaffected. -/
theorem sbtWriteLoop_read_below (stride : Nat) (handles : List (List Nat)) :
    ∀ (g : Nat) (buf : List Nat) (off len : Nat),
      off + len ≤ g * stride → off + len ≤ buf.length →
      readBytes (sbtWriteLoop stride g handles buf) off len = readBytes buf off len := by
  induction handles with
  | nil => intro g buf off len h1 h2; rfl
  | cons h rest ih =>
    intro g buf off len h1 h2
    show readBytes (sbtWriteLoop stride (g + 1) rest (writeBytes buf (g * stride) h)) off len
      = readBytes buf off len
    rw [ih (g + 1) (writeBytes buf (g * stride) h) off len
      (by nlinarith [Nat.mul_le_mul_right stride (Nat.le_succ g)])
      (le_trans h2 (writeBytes_length_ge buf h (g * stride)))]
    exact readBytes_writeBytes_below buf h off len (g * stride) h1 h2

/-- Round-trip of the write loop from any starting group index: reading handle
number i back at offset (g + i) * stride returns exactly its bytes. -/
theorem sbtWriteLoop_read (stride : Nat) (handles : List (List Nat)) :
    ∀ (g : Nat) (buf : List Nat),
      (∀ h ∈ handles, h.length ≤ stride) →
      (g + handles.length) * stride ≤ buf.length →
      ∀ i (hi : i < handles.length),
        readBytes (sbtWriteLoop stride g handles buf) ((g + i) * stride)
            ((handles.get ⟨i, hi⟩).length)
          = handles.get ⟨i, hi⟩ := by
  induction handles with
  | nil => intro g buf hlen hbuf i hi; exact absurd hi (by simp)
  | cons h rest ih =>
    intro g buf hlen hbuf i hi
    have hh : h.length ≤ stride := hlen h (List.mem_cons_self h rest)
    have hmono : (g + 1) * stride ≤ (g + (h :: rest).length) * stride :=
      Nat.mul_le_mul_right stride (by simp)
    have hwrite : g * stride + h.length ≤ buf.length := by
      have : g * stride + stride ≤ (g + 1) * stride := by ring_nf; omega
      omega
    have hlenpreserved : (writeBytes buf (g * stride) h).length = buf.length :=
      writeBytes_length buf h (g * stride) hwrite
    cases i with
    | zero =>
      show readBytes (sbtWriteLoop stride (g + 1) rest (writeBytes buf (g * stride) h))
          (g * stride) h.length = h
      rw [sbtWriteLoop_read_below stride rest (g + 1) (writeBytes buf (g * stride) h)
        (g * stride) h.length (by ring_nf; omega) (by omega)]
      exact readBytes_writeBytes_self buf h (g * stride) hwrite
    | succ j =>
      have hj : j < rest.length := by
        simp at hi
        omega
      show readBytes (sbtWriteLoop stride (g + 1) rest (writeBytes buf (g * stride) h))
          ((g + (j + 1)) * stride) ((rest.get ⟨j, hj⟩).length) = rest.get ⟨j, hj⟩
      have harg : g + (j + 1) = (g + 1) + j := by omega
      rw [harg]
      exact ih (g + 1) (writeBytes buf (g * stride) h)
        (fun x hx => hlen x (List.mem_cons_of_mem h hx))
        (by
          have hc : g + 1 + rest.length = g + (h :: rest).length := by
            simp [List.length_cons]
            omega
          rw [hlenpreserved, hc]
          exact hbuf)
        j hj

/-- C3: for every groupCount and every list of groupCount handles of handleSize
bytes each, writing handle i at offset i * stride into a buffer of size
stride * groupCount and then reading handleSize bytes back at offset i * stride
reproduces handle i's bytes exactly, for every i < groupCount; only the first
handleSize bytes of each record are read, never a padding byte. -/
theorem sbtPack_roundtrip (stride handleSize groupCount : Nat)
    (handles : List (List Nat)) (buf : List Nat)
    (hcount : handles.length = groupCount)
    (hhs : ∀ h ∈ handles, h.length = handleSize)
    (hstride : handleSize ≤ stride)
    (hbuf : buf.length = stride * groupCount)
    (i : Nat) (hi : i < handles.length) :
    readBytes (sbtPack stride handles buf) (i * stride) handleSize
      = handles.get ⟨i, hi⟩ := by
  have hlen : ∀ h ∈ handles, h.length ≤ stride := fun h hm => (hhs h hm) ▸ hstride
  have hb : (0 + handles.length) * stride ≤ buf.length := by
    rw [hbuf, hcount, Nat.zero_add, Nat.mul_comm]
  have hmain := sbtWriteLoop_read stride handles 0 buf hlen hb i hi
  rw [Nat.zero_add] at hmain
  rw [hhs (handles.get ⟨i, hi⟩) (handles.get_mem i hi)] at hmain
  exact hmain

/-- Instantiation of the C3 theorem: two 1-byte handles packed at stride 2 into
a 4-byte buffer; reading record 1 returns handle 1. -/
theorem sbtPack_roundtrip_witness :
    readBytes (sbtPack 2 [[7], [9]] [0, 0, 0, 0]) (1 * 2) 1
      = [[7], [9]].get ⟨1, by decide⟩ :=
  sbtPack_roundtrip 2 1 2 [[7], [9]] [0, 0, 0, 0] rfl (by decide) (by decide) rfl 1
    (by decide)

/-- Instantiation of the C4 theorem at start address 4096 and stride 64. -/
theorem sbtRegions_layout_witness :
    (mkSbtRegions 4096 64).1.deviceAddress = 4096 ∧
    (mkSbtRegions 4096 64).1.stride = 64 ∧
    (mkSbtRegions 4096 64).1.size = 64 ∧
    (mkSbtRegions 4096 64).2.1.size = 0 ∧
    (mkSbtRegions 4096 64).2.2.1.size = 0 ∧
    (mkSbtRegions 4096 64).2.2.2.size = 0 ∧
    (mkSbtRegions 4096 64).2.1.stride = (mkSbtRegions 4096 64).1.stride ∧
    (mkSbtRegions 4096 64).2.2.1.stride = (mkSbtRegions 4096 64).1.stride ∧
    (mkSbtRegions 4096 64).2.2.2.stride = (mkSbtRegions 4096 64).1.stride ∧
    (mkSbtRegions 4096 64).2.1.deviceAddress = 4096 ∧
    (mkSbtRegions 4096 64).2.2.1.deviceAddress = 4096 ∧
    (mkSbtRegions 4096 64).2.2.2.deviceAddress = 4096 :=
  sbtRegions_layout 4096 64

/-- Instantiation of the C8 theorem at the constant address map sending every
BLAS index to 100. -/
theorem instanceGrid_tlas_witness :
    (instanceGrid (fun _ => 100)).length = 441 ∧
    (instanceGrid (fun _ => 100)).map (fun i => i.accelerationStructureReference)
      = List.replicate 441 100 ∧
    (asBuildTrace (fun _ => 100)).head? = some ASEvent.buildBlas ∧
    (asBuildTrace (fun _ => 100)).count (ASEvent.buildTlas 441) = 1 ∧
    (∀ n, ASEvent.buildTlas n ∈ asBuildTrace (fun _ => 100) → n = 441) :=
  instanceGrid_tlas (fun _ => 100)
